import Mathlib

/-!
Verification of the cycle-state logging facilities of the MartyPC 8088 core
(`src/core/src/cpu_808x/logging.rs`): a shallow embedding of the CSV trace
emitter (`trace_csv_line`), the two textual renderers (`cycle_state_string`,
`cycle_state_tokens`) and the header function (`cycle_trace_header`), together
with theorems about the segment label, the address-bus segment back-patch, the
CSV line pair, the DMA column, the queue columns, the 8288 control-signal
block, the microcode column and the token/header field counts.

Machine integers of the source (u8/u16/u32, the 20-bit address bus) are
modelled as `Nat` with explicit bounds as hypotheses where a claim depends on
them; timestamps (f64 in the source, only copied and added once) are modelled
as `Rat`.
-/

namespace MartyPC

/-- Logical segment indicator driven onto the bus (variants as matched
exhaustively in logging.rs). -/
inductive Segment
  | ES | SS | CS | DS | None
  deriving DecidableEq, Repr

/-- T-cycle phase of the bus cycle (variants as matched in logging.rs). -/
inductive TCycle
  | Tinit | Ti | T1 | T2 | T3 | T4 | Tw
  deriving DecidableEq, Repr

/-- Last prefetch-queue operation (variants as matched in logging.rs). -/
inductive QueueOp
  | Idle | First | Flush | Subsequent
  deriving DecidableEq, Repr

/-- Latched bus status (variants as matched in logging.rs). -/
inductive BusStatus
  | InterruptAck | IoRead | IoWrite | Halt | CodeFetch | MemRead | MemWrite | Passive
  deriving DecidableEq, Repr

/-- DMA arbitration state (variants as matched in logging.rs); `Operating`
carries the remaining sub-state count. -/
inductive DmaState
  | Idle | TimerTrigger | Dreq | Hrq | HoldA | Operating (n : Nat)
  deriving DecidableEq, Repr

/-- BIU arbitration state (variants as matched in logging.rs); transitional
states carry a countdown payload that rendering discards. -/
inductive BiuStateNew
  | ToIdle (n : Nat) | ToPrefetch (n : Nat) | ToEu (n : Nat) | Idle | Prefetch | Eu
  deriving DecidableEq, Repr

/-- The i8288 bus-controller output lines read by logging.rs. -/
structure I8288 where
  ale : Bool
  mrdc : Bool
  amwc : Bool
  mwtc : Bool
  iorc : Bool
  aiowc : Bool
  iowc : Bool
  deriving DecidableEq, Repr

/-- Structured token emitted by `cycle_state_tokens` (only the `Text` variant
of the source's SyntaxToken type is used by logging.rs). -/
inductive SyntaxToken
  | Text (s : String)
  deriving DecidableEq, Repr

/-- The fields of the CPU state that logging.rs reads (and, for
`address_bus`, writes back).  Fields of external types that logging.rs only
renders through their own Display/Debug implementations (the queue contents,
the fetch state, the decoded instruction) are carried as their rendered
strings; the video device is carried as its `get_sync()` result when present. -/
structure Cpu where
  address_bus : Nat
  data_bus : Nat
  cs : Nat
  ip : Nat
  trace_instr : Nat
  wait_states : Nat
  instr_cycle : Nat
  cycle_num : Nat
  last_queue_len : Nat
  last_queue_byte : Nat
  dram_refresh_cycle_num : Nat
  i_size : Nat
  t_stamp : Rat
  t_step_h : Rat
  ready : Bool
  intr : Bool
  dma_aen : Bool
  is_last_wait : Bool
  queue_has_preload : Bool
  i8288 : I8288
  bus_segment : Segment
  t_cycle : TCycle
  last_queue_op : QueueOp
  bus_status : BusStatus
  bus_status_latch : BusStatus
  dma_state : DmaState
  biu_state_new : BiuStateNew
  video : Option (Bool × Bool × Bool × Bool)
  queue_string : String
  fetch_state_debug : String
  i_display : String
  trace_comment : List String
  deriving DecidableEq, Repr

/-- One emitted CSV line, one record field per column of the format string
of `trace_csv_line`, in emission order. -/
structure CsvLine where
  t : Rat
  addr : Nat
  clk : Nat
  ready : Nat
  q : Nat
  s : Nat
  res0 : Nat
  intr : Nat
  dr0 : Nat
  vs : Nat
  hs : Nat
  den : Nat
  brd : Nat
  deriving DecidableEq, Repr, Inhabited

/-! ### Formatting helpers (Rust `format!` semantics used by logging.rs) -/

/-- Uppercase hex digit for a value below 16 (Rust `X` formatting). -/
def hexDigit (n : Nat) : Char :=
  if n < 10 then Char.ofNat (48 + n) else Char.ofNat (55 + n)

/-- Uppercase hex digits, most significant first; structural recursion on a
fuel argument (always sufficient at `fuel > n`, since the value shrinks by a
factor of 16 each step) so that concrete values reduce by evaluation. -/
def hexCharsAux : Nat → Nat → List Char
  | 0, _ => []
  | fuel + 1, n =>
    if n < 16 then [hexDigit n]
    else hexCharsAux fuel (n / 16) ++ [hexDigit (n % 16)]

/-- Uppercase hex digits of `n`, most significant first. -/
def hexChars (n : Nat) : List Char := hexCharsAux (n + 1) n

/-- Uppercase hex rendering of `n` (Rust `X`). -/
def hexStr (n : Nat) : String := ⟨hexChars n⟩

/-- Zero-pad `s` on the left to width `w` (Rust numeric `0w` flag). -/
def padZ (w : Nat) (s : String) : String :=
  (⟨List.replicate (w - s.length) '0'⟩ : String) ++ s

/-- Space-pad `s` on the right to width `w` (Rust width on a string
Display argument, default left alignment). -/
def padR (w : Nat) (s : String) : String :=
  s ++ (⟨List.replicate (w - s.length) ' '⟩ : String)

/-- Rust 0-padded uppercase hex of width `w`. -/
def hexPad (w : Nat) (n : Nat) : String := padZ w (hexStr n)

/-- Rust 0-padded decimal of width `w`. -/
def decPad (w : Nat) (n : Nat) : String := padZ w (toString n)

/-- Rust `if b { 1 } else { 0 }`. -/
def b2n (b : Bool) : Nat := if b then 1 else 0

/-! ### Constants of `cpu_808x::microcode` used by logging.rs -/

/-- Modelled from the spec: the jump control-flow sentinel of the microcode
classifier (`MC_JUMP` of the microcode module, which is not under src/); the
spec fixes only that the four sentinels are distinct reserved values. -/
def MC_JUMP : Nat := 0x200

/-- Modelled from the spec: the subroutine-return sentinel (`MC_RTN`). -/
def MC_RTN : Nat := 0x201

/-- Modelled from the spec: the correction sentinel (`MC_CORR`). -/
def MC_CORR : Nat := 0x202

/-- Modelled from the spec: the no-microcode-active sentinel (`MC_NONE`). -/
def MC_NONE : Nat := 0x203

/-- Modelled from the spec: the fixed-size microcode mnemonic table
(`MICROCODE_SRC_8088`, not under src/); the entries' text is external to this
subsystem, only the table's fixed size matters to it. -/
def MICROCODE_SRC_8088 : List String := List.replicate 512 "<mc>"

/-- Modelled from the spec: the fixed placeholder rendered for an
out-of-range mnemonic lookup (`MICROCODE_NUL`, not under src/). -/
def MICROCODE_NUL : String := "(NUL)"

/-- Modelled from the spec: `QueueOp as u8` (the enum declaration is not
under src/; discriminants follow the declaration order, taken to be the
match order of logging.rs). -/
def queueOpCode : QueueOp → Nat
  | .Idle => 0
  | .First => 1
  | .Flush => 2
  | .Subsequent => 3

/-- Modelled from the spec: `BusStatus as u8` (the enum declaration is not
under src/; discriminants follow the declaration order, taken to be the
match order of logging.rs). -/
def busStatusCode : BusStatus → Nat
  | .InterruptAck => 0
  | .IoRead => 1
  | .IoWrite => 2
  | .Halt => 3
  | .CodeFetch => 4
  | .MemRead => 5
  | .MemWrite => 6
  | .Passive => 7

/-! ### Components of the renderers (the local bindings of
`cycle_state_string` / `cycle_state_tokens`, which compute them with
identical code) -/

/-- The 2-bit hardware segment code of the back-patch in `trace_csv_line`. -/
def segCode : Segment → Nat
  | .ES => 0
  | .SS => 1
  | .CS => 2
  | .None => 2
  | .DS => 3

/-- The address-bus segment back-patch of `trace_csv_line`: overwrite bits
16-17 with the segment code. -/
def segBackpatch (seg : Segment) (addr : Nat) : Nat :=
  (addr &&& 0b11001111111111111111) ||| (segCode seg <<< 16)

/-- `ale_str` of `cycle_state_string`. -/
def ale_str (st : Cpu) : String := if st.i8288.ale then "A:" else "  "

/-- The ALE token text of `cycle_state_tokens`. -/
def ale_tok_str (st : Cpu) : String := if st.i8288.ale then "A" else " "

/-- `seg_str`: blank in T1 or for `Segment::None`, else the segment name. -/
def seg_str (st : Cpu) : String :=
  if st.t_cycle ≠ TCycle.T1 then
    match st.bus_segment with
    | .None => "  "
    | .SS => "SS"
    | .ES => "ES"
    | .CS => "CS"
    | .DS => "DS"
  else "  "

/-- `q_op_chr`: one-character code of the last queue operation. -/
def q_op_chr (st : Cpu) : Char :=
  match st.last_queue_op with
  | .Idle => ' '
  | .First => 'F'
  | .Flush => 'E'
  | .Subsequent => 'S'

/-- `q_preload_char`. -/
def q_preload_char (st : Cpu) : Char := if st.queue_has_preload then '*' else ' '

/-- `biu_state_new_str`. -/
def biu_state_new_str (st : Cpu) : String :=
  match st.biu_state_new with
  | .ToIdle _ => ">I "
  | .ToPrefetch _ => ">PF"
  | .ToEu _ => ">EU"
  | .Idle => "I  "
  | .Prefetch => "PF "
  | .Eu => "EU "

/-- `rs_chr`. -/
def rs_chr (st : Cpu) : Char := if st.i8288.mrdc then 'R' else '.'

/-- `aws_chr`. -/
def aws_chr (st : Cpu) : Char := if st.i8288.amwc then 'A' else '.'

/-- `ws_chr`. -/
def ws_chr (st : Cpu) : Char := if st.i8288.mwtc then 'W' else '.'

/-- `ior_chr`. -/
def ior_chr (st : Cpu) : Char := if st.i8288.iorc then 'R' else '.'

/-- `aiow_chr`. -/
def aiow_chr (st : Cpu) : Char := if st.i8288.aiowc then 'A' else '.'

/-- `iow_chr`. -/
def iow_chr (st : Cpu) : Char := if st.i8288.iowc then 'W' else '.'

/-- `bus_str`: fixed 4-character label of the latched bus status. -/
def bus_str (st : Cpu) : String :=
  match st.bus_status_latch with
  | .InterruptAck => "IRQA"
  | .IoRead => "IOR "
  | .IoWrite => "IOW "
  | .Halt => "HALT"
  | .CodeFetch => "CODE"
  | .MemRead => "MEMR"
  | .MemWrite => "MEMW"
  | .Passive => "PASV"

/-- `t_str`. -/
def t_str (st : Cpu) : String :=
  match st.t_cycle with
  | .Tinit => "Tx"
  | .Ti => "Ti"
  | .T1 => "T1"
  | .T2 => "T2"
  | .T3 => "T3"
  | .T4 => "T4"
  | .Tw => "Tw"

/-- `is_reading = mrdc | iorc`. -/
def is_reading (st : Cpu) : Bool := st.i8288.mrdc || st.i8288.iorc

/-- `is_writing = mwtc | iowc`. -/
def is_writing (st : Cpu) : Bool := st.i8288.mwtc || st.i8288.iowc

/-- `xfer_str`: the 6-character transfer field. -/
def xfer_str (st : Cpu) : String :=
  if is_reading st then "<-r " ++ hexPad 2 st.data_bus
  else if is_writing st then "w-> " ++ hexPad 2 st.data_bus
  else "      "

/-- `q_read_str`: the 6-character queue-read field. -/
def q_read_str (st : Cpu) : String :=
  if st.last_queue_op = QueueOp.First ∨ st.last_queue_op = QueueOp.Subsequent then
    "<-q " ++ hexPad 2 st.last_queue_byte
  else "      "

/-- `instr_str`: the instruction marker, non-empty only on `QueueOp::First`. -/
def instr_str (st : Cpu) : String :=
  if st.last_queue_op = QueueOp.First then
    "[" ++ hexPad 4 st.cs ++ ":" ++ hexPad 4 st.ip ++ "] " ++ st.i_display
      ++ " (" ++ toString st.i_size ++ ") "
  else ""

/-- `microcode_line_str`: sentinels first, in match order, else 3-digit hex. -/
def microcode_line_str (st : Cpu) : String :=
  if st.trace_instr = MC_JUMP then "JMP"
  else if st.trace_instr = MC_RTN then "RET"
  else if st.trace_instr = MC_CORR then "COR"
  else if st.trace_instr = MC_NONE then "   "
  else hexPad 3 st.trace_instr

/-- `microcode_op_str`: guarded mnemonic table lookup with placeholder. -/
def microcode_op_str (st : Cpu) : String :=
  if st.trace_instr < MICROCODE_SRC_8088.length then
    MICROCODE_SRC_8088.getD st.trace_instr ""
  else MICROCODE_NUL

/-- `tx_cycle`. -/
def tx_cycle (st : Cpu) : Char := if st.is_last_wait then 'x' else '.'

/-- `ready_chr`: derived ready indicator. -/
def ready_chr (st : Cpu) : Char := if st.wait_states > 0 then '.' else 'R'

/-- `dma_count_str`: the two zero-padded counters shown while DMA is idle. -/
def dma_count_str (st : Cpu) (dma_count : Nat) : String :=
  decPad 2 dma_count ++ " " ++ decPad 2 st.dram_refresh_cycle_num

/-- `dma_str`: the DMA column. -/
def dma_str (st : Cpu) (dma_count : Nat) : String :=
  match st.dma_state with
  | .Idle => dma_count_str st dma_count
  | .TimerTrigger => "TIMR"
  | .Dreq => "DREQ"
  | .Hrq => "HRQ "
  | .HoldA => "HLDA"
  | .Operating n =>
    match n with
    | 4 => "S1"
    | 3 => "S2"
    | 2 => "S3"
    | 1 => "S4"
    | _ => "S?"

/-- The 8288 bus-signal block token of `cycle_state_tokens`. -/
def bus_signal_str (st : Cpu) : String :=
  "M:" ++ (⟨[rs_chr st, aws_chr st, ws_chr st]⟩ : String)
    ++ " I:" ++ (⟨[ior_chr st, aiow_chr st, iow_chr st]⟩ : String)

/-- `comment_str`: the trace comments appended in recorded order. -/
def comment_str (st : Cpu) : String :=
  st.trace_comment.foldl (fun acc c => acc ++ "; " ++ c) ""

/-! ### The four public calls of logging.rs -/

/-- `cycle_state_string`: the fixed-column text line (short or long form),
assembled exactly as the two `format!` calls of the source assemble it (the
Rust width specifiers become `padZ`/`padR`; arguments that are already at
their column width are padded all the same, which is the identity on them). -/
def cycle_state_string (st : Cpu) (dma_count : Nat) (short : Bool) : String :=
  let base :=
    if short then
      decPad 4 st.instr_cycle ++ " " ++ padR 2 (ale_str st) ++ "["
        ++ hexPad 5 st.address_bus ++ "] " ++ padR 2 (seg_str st) ++ " "
        ++ (ready_chr st).toString ++ toString st.wait_states
        ++ " M:" ++ (⟨[rs_chr st, aws_chr st, ws_chr st]⟩ : String)
        ++ " I:" ++ (⟨[ior_chr st, aiow_chr st, iow_chr st]⟩ : String)
        ++ " |" ++ padR 5 (dma_str st dma_count) ++ "| "
        ++ padR 4 (bus_str st) ++ " " ++ padR 2 (t_str st) ++ " "
        ++ padR 6 (xfer_str st) ++ " | " ++ padR 4 (biu_state_new_str st) ++ "| "
        ++ padR 14 st.fetch_state_debug ++ "| "
        ++ (q_op_chr st).toString ++ decPad 1 st.last_queue_len
        ++ (q_preload_char st).toString ++ "[" ++ padR 8 st.queue_string ++ "] "
        ++ q_read_str st ++ " | " ++ padR 3 (microcode_line_str st) ++ " | "
        ++ instr_str st
    else
      decPad 8 st.cycle_num ++ ":" ++ decPad 4 st.instr_cycle ++ " "
        ++ padR 2 (ale_str st) ++ "[" ++ hexPad 5 st.address_bus ++ "] "
        ++ padR 2 (seg_str st) ++ " "
        ++ (ready_chr st).toString ++ toString st.wait_states
        ++ (tx_cycle st).toString
        ++ " M:" ++ (⟨[rs_chr st, aws_chr st, ws_chr st]⟩ : String)
        ++ " I:" ++ (⟨[ior_chr st, aiow_chr st, iow_chr st]⟩ : String)
        ++ " |" ++ padR 5 (dma_str st dma_count) ++ "|  | "
        ++ padR 4 (bus_str st) ++ " " ++ padR 2 (t_str st) ++ " "
        ++ padR 6 (xfer_str st) ++ " | " ++ padR 4 (biu_state_new_str st) ++ "| "
        ++ padR 14 st.fetch_state_debug ++ "| "
        ++ (q_op_chr st).toString ++ decPad 1 st.last_queue_len
        ++ (q_preload_char st).toString ++ "[" ++ padR 8 st.queue_string ++ "] "
        ++ q_read_str st ++ " | " ++ microcode_line_str st ++ ": "
        ++ microcode_op_str st ++ " | " ++ instr_str st
  st.trace_comment.foldl (fun acc c => acc ++ "; " ++ c) base

/-- `cycle_state_tokens`: the 23-token structured rendering (the `short`
argument is accepted, as in the source, where it is likewise unused). -/
def cycle_state_tokens (st : Cpu) (dma_count : Nat) (short : Bool) : List SyntaxToken :=
  [SyntaxToken.Text (decPad 4 st.cycle_num),
   SyntaxToken.Text (decPad 4 st.instr_cycle),
   SyntaxToken.Text (ale_tok_str st),
   SyntaxToken.Text (hexPad 5 st.address_bus),
   SyntaxToken.Text (seg_str st),
   SyntaxToken.Text (ready_chr st).toString,
   SyntaxToken.Text (toString st.wait_states),
   SyntaxToken.Text (tx_cycle st).toString,
   SyntaxToken.Text (bus_signal_str st),
   SyntaxToken.Text (dma_str st dma_count),
   SyntaxToken.Text (bus_str st),
   SyntaxToken.Text (t_str st),
   SyntaxToken.Text (xfer_str st),
   SyntaxToken.Text (biu_state_new_str st),
   SyntaxToken.Text st.fetch_state_debug,
   SyntaxToken.Text (q_op_chr st).toString,
   SyntaxToken.Text (toString st.last_queue_len),
   SyntaxToken.Text st.queue_string,
   SyntaxToken.Text (q_read_str st),
   SyntaxToken.Text (microcode_line_str st),
   SyntaxToken.Text (microcode_op_str st),
   SyntaxToken.Text (instr_str st),
   SyntaxToken.Text (comment_str st)]

/-- `cycle_trace_header`: the fixed column titles. -/
def cycle_trace_header (st : Cpu) : List String :=
  ["Cycle",
   "icyc",
   "ALE",
   "Addr  ",
   "Seg",
   "Rdy",
   "WS",
   "Tx",
   "8288       ",
   "DMA  ",
   "Bus ",
   "T ",
   "Xfer  ",
   "BIU",
   "Fetch       ",
   "Qop",
   "Ql",
   "Queue   ",
   "Qrd   ",
   "MCPC",
   "Microcode",
   "Instr                   ",
   "Comments"]

/-- `trace_csv_line`: applies the segment back-patch when ALE is deasserted,
then emits two CSV lines through `trace_emit`; the emitted lines are returned
as structured records (one field per format argument, in order) together with
the possibly-updated CPU state. -/
def trace_csv_line (st : Cpu) : Cpu × List CsvLine :=
  let q := queueOpCode st.last_queue_op
  let s := busStatusCode st.bus_status
  let sync :=
    match st.video with
    | some (vs_b, hs_b, den_b, brd_b) => (b2n vs_b, b2n hs_b, b2n den_b, b2n brd_b)
    | none => (0, 0, 0, 0)
  let st' :=
    if st.i8288.ale then st
    else { st with address_bus := segBackpatch st.bus_segment st.address_bus }
  let line := fun (t : Rat) (clk : Nat) =>
    { t := t
      addr := st'.address_bus
      clk := clk
      ready := b2n st.ready
      q := q
      s := s
      res0 := 0
      intr := b2n st.intr
      dr0 := if st.dma_state = DmaState.Dreq then 1 else 0
      vs := sync.1
      hs := sync.2.1
      den := sync.2.2.1
      brd := sync.2.2.2 : CsvLine }
  (st', [line st.t_stamp 1, line (st.t_stamp + st.t_step_h) 0])

/-- Modelled from the spec: the per-half-cycle orchestration (the simulation
step loop, which is not under src/) performs the segment back-patch, done
here by `trace_csv_line`, before the textual and token renderers read the
address bus, per the contract that the mutation must happen-before any render
call in the same half-cycle. -/
def halfCycleRender (st : Cpu) (dma_count : Nat) (short : Bool) :
    (Cpu × List CsvLine) × String × List SyntaxToken :=
  let r := trace_csv_line st
  (r, cycle_state_string r.1 dma_count short, cycle_state_tokens r.1 dma_count short)

/-! ### Helper lemmas: formatting widths -/

/-- `padZ` pads to at least the requested width. -/
theorem length_padZ (w : Nat) (s : String) : (padZ w s).length = max w s.length := by
  simp only [padZ, String.length_append]
  show (List.replicate (w - s.length) '0').length + s.length = max w s.length
  simp only [List.length_replicate]
  omega

/-- Digit-count bound for the fuelled hex renderer. -/
theorem hexCharsAux_length_le : ∀ (fuel k n : Nat), 1 ≤ k → n < 16 ^ k → n < fuel →
    (hexCharsAux fuel n).length ≤ k := by
  intro fuel
  induction fuel with
  | zero => omega
  | succ f ih =>
    intro k n hk hn hf
    rw [hexCharsAux]
    by_cases h : n < 16
    · simp only [h, if_true, List.length_cons, List.length_nil]
      omega
    · simp only [h, if_false, List.length_append, List.length_cons, List.length_nil]
      have hk1 : 1 ≤ k - 1 := by
        rcases Nat.lt_or_ge k 2 with hh | hh
        · exfalso
          have hk1' : k = 1 := by omega
          subst hk1'
          rw [pow_one] at hn
          omega
        · omega
      have hd : n / 16 < 16 ^ (k - 1) := by
        apply (Nat.div_lt_iff_lt_mul (by omega)).mpr
        calc n < 16 ^ k := hn
        _ = 16 ^ (k - 1) * 16 := by
            rw [← pow_succ]
            congr 1
            omega
      have := ih (k - 1) (n / 16) hk1 hd (by
        have h1 : n / 16 < n := Nat.div_lt_self (by omega) (by omega)
        omega)
      omega

/-- A value below `16 ^ k` renders in at most `k` hex digits. -/
theorem hexChars_length_le (k n : Nat) (hk : 1 ≤ k) (hn : n < 16 ^ k) :
    (hexChars n).length ≤ k :=
  hexCharsAux_length_le (n + 1) k n hk hn (by omega)

/-- Rust `0wX` formatting of a value below `16 ^ w` is exactly `w` characters. -/
theorem length_hexPad (w n : Nat) (hw : 1 ≤ w) (hn : n < 16 ^ w) :
    (hexPad w n).length = w := by
  rw [hexPad, length_padZ]
  have := hexChars_length_le w n hw hn
  have he : (hexStr n).length = (hexChars n).length := rfl
  omega

/-! ### Helper lemmas: fixed string prefixes keep renderings apart -/

/-- A read transfer field never equals the blank transfer field. -/
theorem read_xfer_ne_blank (x : String) : "<-r " ++ x ≠ "      " := by
  intro h
  have h2 := congrArg String.data h
  simp only [String.data_append] at h2
  injection h2 with h3 _
  exact absurd h3 (by decide)

/-- A write transfer field never equals the blank transfer field. -/
theorem write_xfer_ne_blank (x : String) : "w-> " ++ x ≠ "      " := by
  intro h
  have h2 := congrArg String.data h
  simp only [String.data_append] at h2
  injection h2 with h3 _
  exact absurd h3 (by decide)

/-- A read transfer field never equals a write transfer field. -/
theorem read_xfer_ne_write (x y : String) : "<-r " ++ x ≠ "w-> " ++ y := by
  intro h
  have h2 := congrArg String.data h
  simp only [String.data_append] at h2
  injection h2 with h3 _
  exact absurd h3 (by decide)

/-- A queue-read field never equals the blank queue-read field. -/
theorem queue_read_ne_blank (x : String) : "<-q " ++ x ≠ "      " := by
  intro h
  have h2 := congrArg String.data h
  simp only [String.data_append] at h2
  injection h2 with h3 _
  exact absurd h3 (by decide)

/-- A bracketed instruction marker is never the empty string. -/
theorem bracket_ne_empty (x : String) : "[" ++ x ≠ "" := by
  intro h
  have h2 := congrArg String.data h
  simp only [String.data_append] at h2
  injection h2

/-! ### Helper lemmas: the segment back-patch, bit by bit -/

/-- Masking out bits disjoint from an or-ed-in value recovers the mask of the
original value. -/
theorem and_lor_and (a s m : Nat) (h : s &&& m = 0) :
    ((a &&& m) ||| s) &&& m = a &&& m := by
  apply Nat.eq_of_testBit_eq
  intro i
  have hi := congrArg (fun x => x.testBit i) h
  simp only [Nat.testBit_land, Nat.zero_testBit] at hi
  simp only [Nat.testBit_land, Nat.testBit_lor]
  cases ha : a.testBit i <;> cases hm : m.testBit i <;> simp_all

/-- A 2-bit code shifted to bits 16-17 is disjoint from the back-patch mask. -/
theorem segShift_and_mask (c : Nat) (hc : c < 4) :
    (c <<< 16) &&& 0b11001111111111111111 = 0 := by
  apply Nat.eq_of_testBit_eq
  intro i
  simp only [Nat.testBit_land, Nat.testBit_shiftLeft, Nat.zero_testBit]
  rcases Nat.lt_or_ge i 16 with h16 | h16
  · simp [show ¬ (i ≥ 16) by omega]
  · rcases Nat.lt_or_ge i 18 with h18 | h18
    · have hm : (0b11001111111111111111 : Nat).testBit i = false := by
        interval_cases i <;> decide
      simp [hm]
    · have hcb : c.testBit (i - 16) = false := by
        apply Nat.testBit_lt_two_pow
        calc c < 4 := hc
        _ = 2 ^ 2 := by norm_num
        _ ≤ 2 ^ (i - 16) := Nat.pow_le_pow_right (by omega) (by omega)
      simp [hcb]

/-- Every segment's hardware code is a 2-bit value. -/
theorem segCode_lt (seg : Segment) : segCode seg < 4 := by
  cases seg <;> decide

/-- The back-patch leaves address bits 0-15 unchanged. -/
theorem segBackpatch_mod (seg : Segment) (a : Nat) :
    segBackpatch seg a % 2 ^ 16 = a % 2 ^ 16 := by
  apply Nat.eq_of_testBit_eq
  intro i
  simp only [Nat.testBit_mod_two_pow]
  rcases Nat.lt_or_ge i 16 with h16 | h16
  · simp only [h16, decide_True, Bool.true_and]
    unfold segBackpatch
    simp only [Nat.testBit_lor, Nat.testBit_land, Nat.testBit_shiftLeft]
    have hm : (0b11001111111111111111 : Nat).testBit i = true := by
      have hmask : (0b11001111111111111111 : Nat) = 0xFFFF ||| (3 <<< 18) := by decide
      rw [hmask]
      simp only [Nat.testBit_lor, Nat.testBit_shiftLeft]
      have h16' : (0xFFFF : Nat) = 2 ^ 16 - 1 := by norm_num
      rw [h16', Nat.testBit_two_pow_sub_one]
      simp [h16]
    rw [hm]
    simp [show ¬ (i ≥ 16) by omega]
  · simp [show ¬ i < 16 by omega]

/-- The back-patch fully overwrites address bits 16-17 with the segment code. -/
theorem segBackpatch_mid (seg : Segment) (a : Nat) :
    segBackpatch seg a / 2 ^ 16 % 4 = segCode seg := by
  have hc := segCode_lt seg
  have h4 : (4 : Nat) = 2 ^ 2 := by norm_num
  rw [← Nat.shiftRight_eq_div_pow, h4]
  apply Nat.eq_of_testBit_eq
  intro i
  simp only [Nat.testBit_mod_two_pow, Nat.testBit_shiftRight]
  rcases Nat.lt_or_ge i 2 with h2 | h2
  · simp only [h2, decide_True, Bool.true_and]
    unfold segBackpatch
    simp only [Nat.testBit_lor, Nat.testBit_land, Nat.testBit_shiftLeft]
    have hm : (0b11001111111111111111 : Nat).testBit (16 + i) = false := by
      interval_cases i <;> decide
    rw [hm]
    simp only [Bool.and_false, Bool.false_or]
    have hge : 16 + i ≥ 16 := by omega
    simp [hge, show 16 + i - 16 = i by omega]
  · have hcb : (segCode seg).testBit i = false := by
      apply Nat.testBit_lt_two_pow
      calc segCode seg < 4 := hc
      _ = 2 ^ 2 := by norm_num
      _ ≤ 2 ^ i := Nat.pow_le_pow_right (by omega) h2
    simp [show ¬ i < 2 by omega, hcb]

/-- The back-patch leaves address bits 18-19 (and above) unchanged for a
20-bit address. -/
theorem segBackpatch_hi (seg : Segment) (a : Nat) (ha : a < 2 ^ 20) :
    segBackpatch seg a / 2 ^ 18 = a / 2 ^ 18 := by
  have hc := segCode_lt seg
  rw [← Nat.shiftRight_eq_div_pow, ← Nat.shiftRight_eq_div_pow]
  apply Nat.eq_of_testBit_eq
  intro i
  simp only [Nat.testBit_shiftRight]
  unfold segBackpatch
  simp only [Nat.testBit_lor, Nat.testBit_land, Nat.testBit_shiftLeft]
  have hcb : (segCode seg).testBit (18 + i - 16) = false := by
    apply Nat.testBit_lt_two_pow
    calc segCode seg < 4 := hc
    _ = 2 ^ 2 := by norm_num
    _ ≤ 2 ^ (18 + i - 16) := Nat.pow_le_pow_right (by omega) (by omega)
  rw [hcb]
  simp only [Bool.and_false, Bool.or_false]
  rcases Nat.lt_or_ge i 2 with h2 | h2
  · have hm : (0b11001111111111111111 : Nat).testBit (18 + i) = true := by
      interval_cases i <;> decide
    simp [hm]
  · have hm : a.testBit (18 + i) = false := by
      apply Nat.testBit_lt_two_pow
      calc a < 2 ^ 20 := ha
      _ ≤ 2 ^ (18 + i) := Nat.pow_le_pow_right (by omega) (by omega)
    rw [hm]
    simp

/-- The back-patch is idempotent for every address and segment. -/
theorem segBackpatch_idem (seg : Segment) (a : Nat) :
    segBackpatch seg (segBackpatch seg a) = segBackpatch seg a := by
  unfold segBackpatch
  congr 1
  exact and_lor_and a (segCode seg <<< 16) 0b11001111111111111111
    (segShift_and_mask (segCode seg) (segCode_lt seg))

/-! ### The claims -/

/-- Claim C1: for every CPU state, the 2-character segment label produced by
the renderers is blank exactly when the current T-cycle is T1 or the
bus-segment indicator is None; in every other case it is one of
"SS", "ES", "CS", "DS" (and the token renderer emits exactly this label as
its fifth field). -/
theorem claim_C1_segment_label (st : Cpu) (dc : Nat) (b : Bool) :
    (seg_str st = "  " ↔ st.t_cycle = TCycle.T1 ∨ st.bus_segment = Segment.None) ∧
    (seg_str st = "  " ∨ seg_str st = "SS" ∨ seg_str st = "ES" ∨
      seg_str st = "CS" ∨ seg_str st = "DS") ∧
    (cycle_state_tokens st dc b).get? 4 = some (SyntaxToken.Text (seg_str st)) := by
  refine ⟨?_, ?_, rfl⟩
  · unfold seg_str
    generalize st.t_cycle = t
    generalize st.bus_segment = s
    cases t <;> cases s <;> simp
  · unfold seg_str
    generalize st.t_cycle = t
    generalize st.bus_segment = s
    cases t <;> cases s <;> simp

/-- Claim C2: the segment back-patch fully overwrites bits 16-17 of the
20-bit address bus with the 2-bit code ES=0, SS=1, CS or None=2, DS=3,
leaves all other address bits unchanged, and is idempotent. -/
theorem claim_C2_segment_backpatch (seg : Segment) (a : Nat) (ha : a < 2 ^ 20) :
    segBackpatch seg a % 2 ^ 16 = a % 2 ^ 16 ∧
    segBackpatch seg a / 2 ^ 16 % 4 = segCode seg ∧
    segBackpatch seg a / 2 ^ 18 = a / 2 ^ 18 ∧
    segCode Segment.ES = 0 ∧ segCode Segment.SS = 1 ∧ segCode Segment.CS = 2 ∧
    segCode Segment.None = 2 ∧ segCode Segment.DS = 3 ∧
    segBackpatch seg (segBackpatch seg a) = segBackpatch seg a :=
  ⟨segBackpatch_mod seg a, segBackpatch_mid seg a, segBackpatch_hi seg a ha,
   rfl, rfl, rfl, rfl, rfl, segBackpatch_idem seg a⟩

/-- Witness for claim C2 at the segment DS and the address 0x3ABCD. -/
theorem claim_C2_segment_backpatch_witness :
    (0x3ABCD : Nat) < 2 ^ 20 ∧
    (segBackpatch Segment.DS 0x3ABCD % 2 ^ 16 = 0x3ABCD % 2 ^ 16 ∧
    segBackpatch Segment.DS 0x3ABCD / 2 ^ 16 % 4 = segCode Segment.DS ∧
    segBackpatch Segment.DS 0x3ABCD / 2 ^ 18 = 0x3ABCD / 2 ^ 18 ∧
    segCode Segment.ES = 0 ∧ segCode Segment.SS = 1 ∧ segCode Segment.CS = 2 ∧
    segCode Segment.None = 2 ∧ segCode Segment.DS = 3 ∧
    segBackpatch Segment.DS (segBackpatch Segment.DS 0x3ABCD) =
      segBackpatch Segment.DS 0x3ABCD) :=
  ⟨by decide, claim_C2_segment_backpatch Segment.DS 0x3ABCD (by decide)⟩

/-- Claim C3: one call of `trace_csv_line` emits exactly two CSV lines, the
first at `t_stamp` with clock-phase 1 and the second at `t_stamp + t_step_h`
with clock-phase 0, and the two lines agree in every other column. -/
theorem claim_C3_csv_pair (st : Cpu) :
    ((trace_csv_line st).2).length = 2 ∧
    ((trace_csv_line st).2.getD 0 default).clk = 1 ∧
    ((trace_csv_line st).2.getD 1 default).clk = 0 ∧
    ((trace_csv_line st).2.getD 0 default).t = st.t_stamp ∧
    ((trace_csv_line st).2.getD 1 default).t = st.t_stamp + st.t_step_h ∧
    ((trace_csv_line st).2.getD 0 default).addr = ((trace_csv_line st).2.getD 1 default).addr ∧
    ((trace_csv_line st).2.getD 0 default).ready = ((trace_csv_line st).2.getD 1 default).ready ∧
    ((trace_csv_line st).2.getD 0 default).q = ((trace_csv_line st).2.getD 1 default).q ∧
    ((trace_csv_line st).2.getD 0 default).s = ((trace_csv_line st).2.getD 1 default).s ∧
    ((trace_csv_line st).2.getD 0 default).res0 = ((trace_csv_line st).2.getD 1 default).res0 ∧
    ((trace_csv_line st).2.getD 0 default).intr = ((trace_csv_line st).2.getD 1 default).intr ∧
    ((trace_csv_line st).2.getD 0 default).dr0 = ((trace_csv_line st).2.getD 1 default).dr0 ∧
    ((trace_csv_line st).2.getD 0 default).vs = ((trace_csv_line st).2.getD 1 default).vs ∧
    ((trace_csv_line st).2.getD 0 default).hs = ((trace_csv_line st).2.getD 1 default).hs ∧
    ((trace_csv_line st).2.getD 0 default).den = ((trace_csv_line st).2.getD 1 default).den ∧
    ((trace_csv_line st).2.getD 0 default).brd = ((trace_csv_line st).2.getD 1 default).brd :=
  ⟨rfl, rfl, rfl, rfl, rfl, rfl, rfl, rfl, rfl, rfl, rfl, rfl, rfl, rfl, rfl, rfl⟩

/-- Claim C10: for every state, dma count and short flag the token list has
exactly 23 fields and the header exactly 23 titles, and the token list is
identical for short and long mode. -/
theorem claim_C10_field_counts (st : Cpu) (dc : Nat) :
    (cycle_state_tokens st dc true).length = 23 ∧
    (cycle_state_tokens st dc false).length = 23 ∧
    (cycle_trace_header st).length = 23 ∧
    cycle_state_tokens st dc true = cycle_state_tokens st dc false :=
  ⟨rfl, rfl, rfl, rfl⟩

/-- On `QueueOp::First` the instruction marker is non-empty. -/
theorem instr_str_first_ne (st : Cpu) (hop : st.last_queue_op = QueueOp.First) :
    instr_str st ≠ "" := by
  rw [instr_str, if_pos hop]
  intro h
  have h2 := congrArg String.data h
  simp only [String.data_append, List.append_assoc] at h2
  injection h2

/-- A concrete CPU state used by the witnesses of the claims with
hypotheses. -/
def sampleCpu : Cpu :=
  { address_bus := 0x12345
    data_bus := 0x90
    cs := 0x100
    ip := 0x10
    trace_instr := 0x1A3
    wait_states := 0
    instr_cycle := 2
    cycle_num := 1234
    last_queue_len := 1
    last_queue_byte := 0x90
    dram_refresh_cycle_num := 7
    i_size := 1
    t_stamp := 0
    t_step_h := 1
    ready := true
    intr := false
    dma_aen := false
    is_last_wait := false
    queue_has_preload := false
    i8288 :=
      { ale := false
        mrdc := true
        amwc := false
        mwtc := false
        iorc := false
        aiowc := false
        iowc := false }
    bus_segment := Segment.CS
    t_cycle := TCycle.T2
    last_queue_op := QueueOp.First
    bus_status := BusStatus.CodeFetch
    bus_status_latch := BusStatus.CodeFetch
    dma_state := DmaState.Idle
    biu_state_new := BiuStateNew.Prefetch
    video := none
    queue_string := "90"
    fetch_state_debug := "Idle"
    i_display := "NOP"
    trace_comment := [] }

/-- Claim C4: the DMA column maps `Operating(4..1)` bijectively to
`S1..S4`, any other `Operating(n)` to `S?`, and in `Idle` renders the two
counters as a zero-padded 2-digit pair (for example `dma_count = 3` with
refresh cycle 7 renders "03 07"); the token renderer emits this column as
its tenth field. -/
theorem claim_C4_dma_column (st : Cpu) (dc n : Nat) (b : Bool)
    (hn : n ≠ 1 ∧ n ≠ 2 ∧ n ≠ 3 ∧ n ≠ 4) :
    dma_str { st with dma_state := DmaState.Operating 4 } dc = "S1" ∧
    dma_str { st with dma_state := DmaState.Operating 3 } dc = "S2" ∧
    dma_str { st with dma_state := DmaState.Operating 2 } dc = "S3" ∧
    dma_str { st with dma_state := DmaState.Operating 1 } dc = "S4" ∧
    dma_str { st with dma_state := DmaState.Operating 4 } dc ≠
      dma_str { st with dma_state := DmaState.Operating 3 } dc ∧
    dma_str { st with dma_state := DmaState.Operating 4 } dc ≠
      dma_str { st with dma_state := DmaState.Operating 2 } dc ∧
    dma_str { st with dma_state := DmaState.Operating 4 } dc ≠
      dma_str { st with dma_state := DmaState.Operating 1 } dc ∧
    dma_str { st with dma_state := DmaState.Operating 3 } dc ≠
      dma_str { st with dma_state := DmaState.Operating 2 } dc ∧
    dma_str { st with dma_state := DmaState.Operating 3 } dc ≠
      dma_str { st with dma_state := DmaState.Operating 1 } dc ∧
    dma_str { st with dma_state := DmaState.Operating 2 } dc ≠
      dma_str { st with dma_state := DmaState.Operating 1 } dc ∧
    dma_str { st with dma_state := DmaState.Operating n } dc = "S?" ∧
    dma_str { st with dma_state := DmaState.Idle } dc =
      decPad 2 dc ++ " " ++ decPad 2 st.dram_refresh_cycle_num ∧
    dma_str { st with dma_state := DmaState.Idle, dram_refresh_cycle_num := 7 } 3 = "03 07" ∧
    (cycle_state_tokens st dc b).get? 9 = some (SyntaxToken.Text (dma_str st dc)) := by
  obtain ⟨h1, h2, h3, h4⟩ := hn
  refine ⟨rfl, rfl, rfl, rfl,
    (show ("S1" : String) ≠ "S2" by decide),
    (show ("S1" : String) ≠ "S3" by decide),
    (show ("S1" : String) ≠ "S4" by decide),
    (show ("S2" : String) ≠ "S3" by decide),
    (show ("S2" : String) ≠ "S4" by decide),
    (show ("S3" : String) ≠ "S4" by decide),
    ?_, rfl,
    (show decPad 2 3 ++ " " ++ decPad 2 7 = "03 07" by decide), rfl⟩
  rcases n with _ | _ | _ | _ | _ | m
  · rfl
  · omega
  · omega
  · omega
  · omega
  · rfl

/-- Witness for claim C4 at the sample state, `dma_count = 3` and `n = 7`. -/
theorem claim_C4_dma_column_witness :
    ((7 : Nat) ≠ 1 ∧ (7 : Nat) ≠ 2 ∧ (7 : Nat) ≠ 3 ∧ (7 : Nat) ≠ 4) ∧
    (dma_str { sampleCpu with dma_state := DmaState.Operating 4 } 3 = "S1" ∧
    dma_str { sampleCpu with dma_state := DmaState.Operating 3 } 3 = "S2" ∧
    dma_str { sampleCpu with dma_state := DmaState.Operating 2 } 3 = "S3" ∧
    dma_str { sampleCpu with dma_state := DmaState.Operating 1 } 3 = "S4" ∧
    dma_str { sampleCpu with dma_state := DmaState.Operating 4 } 3 ≠
      dma_str { sampleCpu with dma_state := DmaState.Operating 3 } 3 ∧
    dma_str { sampleCpu with dma_state := DmaState.Operating 4 } 3 ≠
      dma_str { sampleCpu with dma_state := DmaState.Operating 2 } 3 ∧
    dma_str { sampleCpu with dma_state := DmaState.Operating 4 } 3 ≠
      dma_str { sampleCpu with dma_state := DmaState.Operating 1 } 3 ∧
    dma_str { sampleCpu with dma_state := DmaState.Operating 3 } 3 ≠
      dma_str { sampleCpu with dma_state := DmaState.Operating 2 } 3 ∧
    dma_str { sampleCpu with dma_state := DmaState.Operating 3 } 3 ≠
      dma_str { sampleCpu with dma_state := DmaState.Operating 1 } 3 ∧
    dma_str { sampleCpu with dma_state := DmaState.Operating 2 } 3 ≠
      dma_str { sampleCpu with dma_state := DmaState.Operating 1 } 3 ∧
    dma_str { sampleCpu with dma_state := DmaState.Operating 7 } 3 = "S?" ∧
    dma_str { sampleCpu with dma_state := DmaState.Idle } 3 =
      decPad 2 3 ++ " " ++ decPad 2 sampleCpu.dram_refresh_cycle_num ∧
    dma_str { sampleCpu with dma_state := DmaState.Idle, dram_refresh_cycle_num := 7 } 3 =
      "03 07" ∧
    (cycle_state_tokens sampleCpu 3 true).get? 9 =
      some (SyntaxToken.Text (dma_str sampleCpu 3))) :=
  ⟨by decide, claim_C4_dma_column sampleCpu 3 7 true (by decide)⟩

/-- Claim C5: the last queue operation renders as ' ', 'F', 'E', 'S' for
Idle, First, Flush, Subsequent; the queue-read field is "<-q XX" exactly when
the op is First or Subsequent and 6 blanks otherwise; and a non-empty
instruction marker beginning with the bracketed segment:offset pair is
emitted exactly when the op is First (the token renderer emits these three
fields at positions 15, 18 and 21). -/
theorem claim_C5_queue_columns (st : Cpu) (dc : Nat) (b : Bool)
    (hb : st.last_queue_byte < 256) :
    q_op_chr { st with last_queue_op := QueueOp.Idle } = ' ' ∧
    q_op_chr { st with last_queue_op := QueueOp.First } = 'F' ∧
    q_op_chr { st with last_queue_op := QueueOp.Flush } = 'E' ∧
    q_op_chr { st with last_queue_op := QueueOp.Subsequent } = 'S' ∧
    (q_read_str st = "<-q " ++ hexPad 2 st.last_queue_byte ↔
      st.last_queue_op = QueueOp.First ∨ st.last_queue_op = QueueOp.Subsequent) ∧
    (q_read_str st = "      " ↔
      ¬(st.last_queue_op = QueueOp.First ∨ st.last_queue_op = QueueOp.Subsequent)) ∧
    (q_read_str st).length = 6 ∧
    (instr_str st ≠ "" ↔ st.last_queue_op = QueueOp.First) ∧
    ((instr_str st).data.take
        ("[" ++ hexPad 4 st.cs ++ ":" ++ hexPad 4 st.ip ++ "] ").length =
        ("[" ++ hexPad 4 st.cs ++ ":" ++ hexPad 4 st.ip ++ "] ").data ∨
      st.last_queue_op ≠ QueueOp.First) ∧
    (cycle_state_tokens st dc b).get? 15 =
      some (SyntaxToken.Text (q_op_chr st).toString) ∧
    (cycle_state_tokens st dc b).get? 18 = some (SyntaxToken.Text (q_read_str st)) ∧
    (cycle_state_tokens st dc b).get? 21 = some (SyntaxToken.Text (instr_str st)) := by
  have hl : (hexPad 2 st.last_queue_byte).length = 2 :=
    length_hexPad 2 st.last_queue_byte (by omega)
      (by
        have h216 : (256 : Nat) = 16 ^ 2 := by norm_num
        omega)
  have d := queue_read_ne_blank (hexPad 2 st.last_queue_byte)
  have d' : ¬("      " = "<-q " ++ hexPad 2 st.last_queue_byte) := fun hh => d hh.symm
  refine ⟨rfl, rfl, rfl, rfl, ?_, ?_, ?_, ?_, ?_, rfl, rfl, rfl⟩
  · cases hop : st.last_queue_op <;> simp_all [q_read_str]
  · cases hop : st.last_queue_op <;> simp_all [q_read_str]
  · cases hop : st.last_queue_op <;>
      simp [q_read_str, hop, String.length_append, hl] <;> decide
  · cases hop : st.last_queue_op
    · simp [instr_str, hop]
    · simp only [hop, iff_true]
      exact instr_str_first_ne st hop
    · simp [instr_str, hop]
    · simp [instr_str, hop]
  · cases hop : st.last_queue_op
    · right
      decide
    · left
      have he : instr_str st =
          ("[" ++ hexPad 4 st.cs ++ ":" ++ hexPad 4 st.ip ++ "] ") ++
            (st.i_display ++ " (" ++ toString st.i_size ++ ") ") := by
        rw [instr_str, if_pos hop]
        simp [String.append_assoc]
      rw [he, String.data_append]
      exact List.take_left' rfl
    · right
      decide
    · right
      decide

/-- Witness for claim C5 at the sample state (whose last queue op is First
and whose last queue byte is 0x90). -/
theorem claim_C5_queue_columns_witness :
    sampleCpu.last_queue_byte < 256 ∧
    (q_op_chr { sampleCpu with last_queue_op := QueueOp.Idle } = ' ' ∧
    q_op_chr { sampleCpu with last_queue_op := QueueOp.First } = 'F' ∧
    q_op_chr { sampleCpu with last_queue_op := QueueOp.Flush } = 'E' ∧
    q_op_chr { sampleCpu with last_queue_op := QueueOp.Subsequent } = 'S' ∧
    (q_read_str sampleCpu = "<-q " ++ hexPad 2 sampleCpu.last_queue_byte ↔
      sampleCpu.last_queue_op = QueueOp.First ∨
        sampleCpu.last_queue_op = QueueOp.Subsequent) ∧
    (q_read_str sampleCpu = "      " ↔
      ¬(sampleCpu.last_queue_op = QueueOp.First ∨
        sampleCpu.last_queue_op = QueueOp.Subsequent)) ∧
    (q_read_str sampleCpu).length = 6 ∧
    (instr_str sampleCpu ≠ "" ↔ sampleCpu.last_queue_op = QueueOp.First) ∧
    ((instr_str sampleCpu).data.take
        ("[" ++ hexPad 4 sampleCpu.cs ++ ":" ++ hexPad 4 sampleCpu.ip ++ "] ").length =
        ("[" ++ hexPad 4 sampleCpu.cs ++ ":" ++ hexPad 4 sampleCpu.ip ++ "] ").data ∨
      sampleCpu.last_queue_op ≠ QueueOp.First) ∧
    (cycle_state_tokens sampleCpu 3 true).get? 15 =
      some (SyntaxToken.Text (q_op_chr sampleCpu).toString) ∧
    (cycle_state_tokens sampleCpu 3 true).get? 18 =
      some (SyntaxToken.Text (q_read_str sampleCpu)) ∧
    (cycle_state_tokens sampleCpu 3 true).get? 21 =
      some (SyntaxToken.Text (instr_str sampleCpu))) :=
  ⟨by decide, claim_C5_queue_columns sampleCpu 3 true (by decide)⟩

/-- Claim C6: the rendered bus-signal block shows each of the six stored
control-line booleans as its letter when true and '.' when false,
independently of the latched bus status, and the 6-character transfer field
is "<-r XX" when mrdc or iorc is set, else "w-> XX" when mwtc or iowc is
set, else 6 blanks, with read taking priority when both kinds are set. -/
theorem claim_C6_bus_signals (st : Cpu) (bs : BusStatus) (dc : Nat) (b : Bool) :
    bus_signal_str { st with bus_status_latch := bs } = bus_signal_str st ∧
    xfer_str { st with bus_status_latch := bs } = xfer_str st ∧
    bus_signal_str st =
      "M:" ++ (if st.i8288.mrdc then "R" else ".") ++
        (if st.i8288.amwc then "A" else ".") ++
        (if st.i8288.mwtc then "W" else ".") ++
      " I:" ++ (if st.i8288.iorc then "R" else ".") ++
        (if st.i8288.aiowc then "A" else ".") ++
        (if st.i8288.iowc then "W" else ".") ∧
    (xfer_str st = "<-r " ++ hexPad 2 st.data_bus ↔
      (st.i8288.mrdc || st.i8288.iorc) = true) ∧
    (xfer_str st = "w-> " ++ hexPad 2 st.data_bus ↔
      ((st.i8288.mrdc || st.i8288.iorc) = false ∧
        (st.i8288.mwtc || st.i8288.iowc) = true)) ∧
    (xfer_str st = "      " ↔
      ((st.i8288.mrdc || st.i8288.iorc) = false ∧
        (st.i8288.mwtc || st.i8288.iowc) = false)) ∧
    xfer_str { st with i8288 := { st.i8288 with mrdc := true, mwtc := true } } =
      "<-r " ++ hexPad 2 st.data_bus ∧
    (cycle_state_tokens st dc b).get? 8 =
      some (SyntaxToken.Text (bus_signal_str st)) := by
  have d1 := read_xfer_ne_blank (hexPad 2 st.data_bus)
  have d2 := write_xfer_ne_blank (hexPad 2 st.data_bus)
  have d3 := read_xfer_ne_write (hexPad 2 st.data_bus) (hexPad 2 st.data_bus)
  have d1' : ¬("      " = "<-r " ++ hexPad 2 st.data_bus) := fun hh => d1 hh.symm
  have d2' : ¬("      " = "w-> " ++ hexPad 2 st.data_bus) := fun hh => d2 hh.symm
  have d3' : ¬("w-> " ++ hexPad 2 st.data_bus = "<-r " ++ hexPad 2 st.data_bus) :=
    fun hh => d3 hh.symm
  refine ⟨rfl, rfl, ?_, ?_, ?_, ?_, rfl, rfl⟩
  · unfold bus_signal_str rs_chr aws_chr ws_chr ior_chr aiow_chr iow_chr
    cases st.i8288.mrdc <;> cases st.i8288.amwc <;> cases st.i8288.mwtc <;>
      cases st.i8288.iorc <;> cases st.i8288.aiowc <;> cases st.i8288.iowc <;> decide
  · unfold xfer_str is_reading is_writing
    cases st.i8288.mrdc <;> cases st.i8288.iorc <;>
      cases st.i8288.mwtc <;> cases st.i8288.iowc <;> simp_all
  · unfold xfer_str is_reading is_writing
    cases st.i8288.mrdc <;> cases st.i8288.iorc <;>
      cases st.i8288.mwtc <;> cases st.i8288.iowc <;> simp_all
  · unfold xfer_str is_reading is_writing
    cases st.i8288.mrdc <;> cases st.i8288.iorc <;>
      cases st.i8288.mwtc <;> cases st.i8288.iowc <;> simp_all

/-- Claim C7: the 3-character microcode column tests the four sentinels in
priority order (JMP, RET, COR, blank) and otherwise prints the trace value
as exactly 3 uppercase hex digits; independently the mnemonic column is the
table entry for an in-range value and the fixed placeholder for an
out-of-range value, so rendering never aborts. -/
theorem claim_C7_microcode_column (st : Cpu) (v u w : Nat)
    (h1 : v ≠ MC_JUMP) (h2 : v ≠ MC_RTN) (h3 : v ≠ MC_CORR) (h4 : v ≠ MC_NONE)
    (h5 : v < 4096) (hu : u < MICROCODE_SRC_8088.length)
    (hw : MICROCODE_SRC_8088.length ≤ w) :
    microcode_line_str { st with trace_instr := MC_JUMP } = "JMP" ∧
    microcode_line_str { st with trace_instr := MC_RTN } = "RET" ∧
    microcode_line_str { st with trace_instr := MC_CORR } = "COR" ∧
    microcode_line_str { st with trace_instr := MC_NONE } = "   " ∧
    microcode_line_str { st with trace_instr := v } = hexPad 3 v ∧
    (microcode_line_str { st with trace_instr := v }).length = 3 ∧
    microcode_op_str { st with trace_instr := u } = MICROCODE_SRC_8088.getD u "" ∧
    microcode_op_str { st with trace_instr := w } = MICROCODE_NUL := by
  have he : microcode_line_str { st with trace_instr := v } = hexPad 3 v := by
    unfold microcode_line_str
    simp [h1, h2, h3, h4]
  have hlen : (hexPad 3 v).length = 3 :=
    length_hexPad 3 v (by omega)
      (by
        have h163 : (4096 : Nat) = 16 ^ 3 := by norm_num
        omega)
  refine ⟨rfl, rfl, rfl, rfl, he, ?_, ?_, ?_⟩
  · rw [he]
    exact hlen
  · unfold microcode_op_str
    simp [hu]
  · unfold microcode_op_str
    simp [show ¬(w < MICROCODE_SRC_8088.length) by omega]

/-- Witness for claim C7 at the trace value 0x1A3, the in-range index 5 and
the out-of-range index 600. -/
theorem claim_C7_microcode_column_witness :
    ((0x1A3 : Nat) ≠ MC_JUMP ∧ (0x1A3 : Nat) ≠ MC_RTN ∧ (0x1A3 : Nat) ≠ MC_CORR ∧
      (0x1A3 : Nat) ≠ MC_NONE ∧ (0x1A3 : Nat) < 4096 ∧
      (5 : Nat) < MICROCODE_SRC_8088.length ∧ MICROCODE_SRC_8088.length ≤ 600) ∧
    (microcode_line_str { sampleCpu with trace_instr := MC_JUMP } = "JMP" ∧
    microcode_line_str { sampleCpu with trace_instr := MC_RTN } = "RET" ∧
    microcode_line_str { sampleCpu with trace_instr := MC_CORR } = "COR" ∧
    microcode_line_str { sampleCpu with trace_instr := MC_NONE } = "   " ∧
    microcode_line_str { sampleCpu with trace_instr := 0x1A3 } = hexPad 3 0x1A3 ∧
    (microcode_line_str { sampleCpu with trace_instr := 0x1A3 }).length = 3 ∧
    microcode_op_str { sampleCpu with trace_instr := 5 } =
      MICROCODE_SRC_8088.getD 5 "" ∧
    microcode_op_str { sampleCpu with trace_instr := 600 } = MICROCODE_NUL) :=
  ⟨⟨by decide, by decide, by decide, by decide, by decide,
    by norm_num [MICROCODE_SRC_8088, List.length_replicate],
    by norm_num [MICROCODE_SRC_8088, List.length_replicate]⟩,
   claim_C7_microcode_column sampleCpu 0x1A3 5 600 (by decide) (by decide) (by decide)
     (by decide) (by decide)
     (by norm_num [MICROCODE_SRC_8088, List.length_replicate])
     (by norm_num [MICROCODE_SRC_8088, List.length_replicate])⟩

/-- Claim C8: none of the external calls can fail: every rendering function
is total, the microcode table lookup falls back to the placeholder, the DMA
`Operating` fallback is "S?", and with no video device attached all four
sync columns of both CSV lines are 0. -/
theorem claim_C8_no_failure (st : Cpu) (dc n w : Nat) (b : Bool)
    (hn : n ≠ 1 ∧ n ≠ 2 ∧ n ≠ 3 ∧ n ≠ 4)
    (hw : MICROCODE_SRC_8088.length ≤ w)
    (hv : st.video = none) :
    microcode_op_str { st with trace_instr := w } = MICROCODE_NUL ∧
    dma_str { st with dma_state := DmaState.Operating n } dc = "S?" ∧
    ((trace_csv_line st).2.getD 0 default).vs = 0 ∧
    ((trace_csv_line st).2.getD 0 default).hs = 0 ∧
    ((trace_csv_line st).2.getD 0 default).den = 0 ∧
    ((trace_csv_line st).2.getD 0 default).brd = 0 ∧
    ((trace_csv_line st).2.getD 1 default).vs = 0 ∧
    ((trace_csv_line st).2.getD 1 default).hs = 0 ∧
    ((trace_csv_line st).2.getD 1 default).den = 0 ∧
    ((trace_csv_line st).2.getD 1 default).brd = 0 ∧
    (cycle_state_tokens st dc b).length = 23 ∧
    (cycle_trace_header st).length = 23 ∧
    ((trace_csv_line st).2).length = 2 := by
  obtain ⟨h1, h2, h3, h4⟩ := hn
  refine ⟨?_, ?_, ?_, ?_, ?_, ?_, ?_, ?_, ?_, ?_, rfl, rfl, rfl⟩
  · unfold microcode_op_str
    simp [show ¬(w < MICROCODE_SRC_8088.length) by omega]
  · rcases n with _ | _ | _ | _ | _ | m
    · rfl
    · omega
    · omega
    · omega
    · omega
    · rfl
  all_goals simp [trace_csv_line, hv]

/-- Witness for claim C8 at the sample state (which has no video device),
`n = 9` and the out-of-range index 600. -/
theorem claim_C8_no_failure_witness :
    (((9 : Nat) ≠ 1 ∧ (9 : Nat) ≠ 2 ∧ (9 : Nat) ≠ 3 ∧ (9 : Nat) ≠ 4) ∧
      MICROCODE_SRC_8088.length ≤ 600 ∧ sampleCpu.video = none) ∧
    (microcode_op_str { sampleCpu with trace_instr := 600 } = MICROCODE_NUL ∧
    dma_str { sampleCpu with dma_state := DmaState.Operating 9 } 3 = "S?" ∧
    ((trace_csv_line sampleCpu).2.getD 0 default).vs = 0 ∧
    ((trace_csv_line sampleCpu).2.getD 0 default).hs = 0 ∧
    ((trace_csv_line sampleCpu).2.getD 0 default).den = 0 ∧
    ((trace_csv_line sampleCpu).2.getD 0 default).brd = 0 ∧
    ((trace_csv_line sampleCpu).2.getD 1 default).vs = 0 ∧
    ((trace_csv_line sampleCpu).2.getD 1 default).hs = 0 ∧
    ((trace_csv_line sampleCpu).2.getD 1 default).den = 0 ∧
    ((trace_csv_line sampleCpu).2.getD 1 default).brd = 0 ∧
    (cycle_state_tokens sampleCpu 3 true).length = 23 ∧
    (cycle_trace_header sampleCpu).length = 23 ∧
    ((trace_csv_line sampleCpu).2).length = 2) :=
  ⟨⟨⟨by decide, by decide, by decide, by decide⟩,
    by norm_num [MICROCODE_SRC_8088, List.length_replicate], by decide⟩,
   claim_C8_no_failure sampleCpu 3 9 600 true
     ⟨by decide, by decide, by decide, by decide⟩
     (by norm_num [MICROCODE_SRC_8088, List.length_replicate]) (by decide)⟩

/-- Claim C9: the segment back-patch of address-bus bits 16-17 happens
before any rendering path reads the address bus: inside `trace_csv_line`
both CSV lines carry the patched (and patch-stable) address, and in the
per-half-cycle orchestration the string and token renderers run on the
patched state, so their address field is the patched value. -/
theorem claim_C9_patch_before_render (st : Cpu) (dc : Nat) (b : Bool)
    (h : st.i8288.ale = false) :
    (trace_csv_line st).1.address_bus = segBackpatch st.bus_segment st.address_bus ∧
    ((trace_csv_line st).2.getD 0 default).addr =
      segBackpatch st.bus_segment st.address_bus ∧
    ((trace_csv_line st).2.getD 1 default).addr =
      segBackpatch st.bus_segment st.address_bus ∧
    segBackpatch st.bus_segment ((trace_csv_line st).2.getD 0 default).addr =
      ((trace_csv_line st).2.getD 0 default).addr ∧
    (halfCycleRender st dc b).2.1 =
      cycle_state_string { st with address_bus := segBackpatch st.bus_segment st.address_bus }
        dc b ∧
    (halfCycleRender st dc b).2.2 =
      cycle_state_tokens { st with address_bus := segBackpatch st.bus_segment st.address_bus }
        dc b ∧
    ((halfCycleRender st dc b).2.2).get? 3 =
      some (SyntaxToken.Text (hexPad 5 (segBackpatch st.bus_segment st.address_bus))) := by
  have hst : (trace_csv_line st).1 =
      { st with address_bus := segBackpatch st.bus_segment st.address_bus } := by
    unfold trace_csv_line
    simp [h]
  have ha0 : ((trace_csv_line st).2.getD 0 default).addr =
      segBackpatch st.bus_segment st.address_bus := by
    unfold trace_csv_line
    simp [h]
  have ha1 : ((trace_csv_line st).2.getD 1 default).addr =
      segBackpatch st.bus_segment st.address_bus := by
    unfold trace_csv_line
    simp [h]
  refine ⟨by rw [hst], ha0, ha1, ?_, ?_, ?_, ?_⟩
  · rw [ha0]
    exact segBackpatch_idem st.bus_segment st.address_bus
  · show cycle_state_string (trace_csv_line st).1 dc b = _
    rw [hst]
  · show cycle_state_tokens (trace_csv_line st).1 dc b = _
    rw [hst]
  · show (cycle_state_tokens (trace_csv_line st).1 dc b).get? 3 = _
    rw [hst]
    rfl

/-- Witness for claim C9 at the sample state, whose ALE line is deasserted. -/
theorem claim_C9_patch_before_render_witness :
    sampleCpu.i8288.ale = false ∧
    ((trace_csv_line sampleCpu).1.address_bus =
      segBackpatch sampleCpu.bus_segment sampleCpu.address_bus ∧
    ((trace_csv_line sampleCpu).2.getD 0 default).addr =
      segBackpatch sampleCpu.bus_segment sampleCpu.address_bus ∧
    ((trace_csv_line sampleCpu).2.getD 1 default).addr =
      segBackpatch sampleCpu.bus_segment sampleCpu.address_bus ∧
    segBackpatch sampleCpu.bus_segment ((trace_csv_line sampleCpu).2.getD 0 default).addr =
      ((trace_csv_line sampleCpu).2.getD 0 default).addr ∧
    (halfCycleRender sampleCpu 3 true).2.1 =
      cycle_state_string
        { sampleCpu with
          address_bus := segBackpatch sampleCpu.bus_segment sampleCpu.address_bus } 3 true ∧
    (halfCycleRender sampleCpu 3 true).2.2 =
      cycle_state_tokens
        { sampleCpu with
          address_bus := segBackpatch sampleCpu.bus_segment sampleCpu.address_bus } 3 true ∧
    ((halfCycleRender sampleCpu 3 true).2.2).get? 3 =
      some (SyntaxToken.Text
        (hexPad 5 (segBackpatch sampleCpu.bus_segment sampleCpu.address_bus)))) :=
  ⟨by decide, claim_C9_patch_before_render sampleCpu 3 true (by decide)⟩
